import Mathlib

/-!
Shallow embedding of `src/main.py` (smartrouting dashboard), covering the
pieces the verified claims are about: the API-status indicator, the overview
activity feed with its demo fallback, the agent-status page with its demo
fallback, the analytics page (graphical and text paths), and
`display_routing_result` with its formatting helpers.

HTTP calls are modelled by an outcome type (`Fetch`): a response carrying an
HTTP status code and a parsed body, or a raised exception.  Python dicts with
optional keys become structures with `Option` fields (or association lists
where the field set itself is under study); Python floats become `Rat`.
-/

namespace SmartRouting

/-- Python `str.title()` restricted to ASCII cased characters (all strings in
`src/main.py` are ASCII): an alphabetic character is uppercased when the
previous character is not alphabetic and lowercased otherwise; other
characters pass through unchanged. -/
def pyTitleGo : Bool → List Char → List Char
  | _, [] => []
  | prevAlpha, c :: cs =>
    if c.isAlpha then
      (if prevAlpha then c.toLower else c.toUpper) :: pyTitleGo true cs
    else
      c :: pyTitleGo false cs

def pyTitle (s : String) : String := String.mk (pyTitleGo false s.data)

/-- Python `s.replace('_', ' ')`: with a one-character pattern and
replacement this is a character map. -/
def replaceUnderscores (s : String) : String :=
  String.mk (s.data.map (fun c => if c = '_' then ' ' else c))

/-- Python `f-string` formatting `.2f` (as used for `score:.2f` in
`display_routing_result`): round to two decimals, render with exactly two
digits after the decimal point. -/
def formatFixed2 (q : Rat) : String :=
  let n : Int := round (q * 100)
  (if n < 0 then "-" else "") ++ toString (n.natAbs / 100) ++ "." ++
    String.mk [Nat.digitChar (n.natAbs % 100 / 10), Nat.digitChar (n.natAbs % 10)]

/-- Python `f-string` formatting `.1%` (as used for `confidence:.1%`):
multiply by 100 and render with one digit after the decimal point and a
percent sign. -/
def formatPct1 (q : Rat) : String :=
  let n : Int := round (q * 1000)
  (if n < 0 then "-" else "") ++ toString (n.natAbs / 10) ++ "." ++
    String.mk [Nat.digitChar (n.natAbs % 10)] ++ "%"

/-- Outcome of one `requests.get`/`requests.post` call: either a response
with an HTTP status code and parsed JSON body, or a raised exception
(timeout, connection refused, ...). -/
inductive Fetch (α : Type) where
  | response (code : Nat) (body : α)
  | exn
deriving DecidableEq

/-- The three states of the sidebar API status indicator rendered by
`check_api_status` (src/main.py lines 86-95). -/
inductive ApiStatusIndicator where
  | online
  | apiError
  | offline
deriving DecidableEq

/-- `check_api_status` (src/main.py lines 86-95): `st.success("🟢 API Online")`
on HTTP 200, `st.error("🔴 API Error")` on any other status code, and
`st.error("🔴 API Offline")` when the request raises (the bare `except:`
catches every exception). -/
def check_api_status (f : Fetch Unit) : ApiStatusIndicator :=
  match f with
  | .response code _ => if code = 200 then .online else .apiError
  | .exn => .offline

/-- A JSON scalar value, as found in the dicts this dashboard consumes. -/
inductive PyValue where
  | str (s : String)
  | int (n : Int)
deriving DecidableEq

/-- A Python dict, as an ordered association list (insertion order, as in
CPython). -/
abbrev PyDict := List (String × PyValue)

/-- How the Live Activity Feed panel of `show_overview` (src/main.py lines
112-133) ends up rendered: the latest five live entries on HTTP 200 with a
non-empty `routings` list, the `st.info` no-data notice on HTTP 200 with an
empty list, and the `show_demo_activity` demo data on a non-200 status or a
raised exception. -/
inductive OverviewFeed where
  | live (entries : List PyDict)
  | noData
  | demo
deriving DecidableEq

/-- The activity-feed part of `show_overview` (src/main.py lines 112-133).
The fetched body is the `routings` list extracted by
`response.json().get("routings", [])`. -/
def show_overview_feed (f : Fetch (List PyDict)) : OverviewFeed :=
  match f with
  | .response code routings =>
      if code = 200 then
        if routings.isEmpty then .noData else .live (routings.take 5)
      else .demo
  | .exn => .demo

/-- The dict keys the live activity-feed rendering reads from each routing
entry (src/main.py lines 121-126: `routing["assigned_at"]`,
`routing.get("alps_score")`, `routing['intent']`, `routing['agent_id']`). -/
def overviewLiveKeysRead : List String :=
  ["assigned_at", "alps_score", "intent", "agent_id"]

/-- `activity_data` from `show_demo_activity` (src/main.py lines 135-145),
verbatim. -/
def activity_data : List PyDict :=
  [[("time", .str "14:32"),
    ("message", .str "New sales lead → Sarah Chen (ALPS: 85.2)"),
    ("status", .str "✅")],
   [("time", .str "14:30"),
    ("message", .str "Urgent support → John Smith (Escalated)"),
    ("status", .str "⚠️")],
   [("time", .str "14:28"),
    ("message", .str "Sales lead → Mike Johnson (ALPS: 72.1)"),
    ("status", .str "✅")],
   [("time", .str "14:25"),
    ("message", .str "SLA breach → Chat reassigned"),
    ("status", .str "❌")]]

/-- Payload of `GET /api/v1/agents/status`: the `agents` dict, mapping team
name (`"sales"`, `"support"`) to a list of agent dicts. -/
abbrev AgentsData := List (String × List PyDict)

/-- How `show_agent_status` (src/main.py lines 180-265) ends up rendered:
the live team panels on HTTP 200; on a non-200 status only
`st.error("Failed to fetch agent status: ...")`; on a raised exception an
error message, `st.info("Showing demo data...")` and
`show_demo_agent_status()`. -/
inductive AgentStatusRender where
  | live (agents : AgentsData)
  | fetchErrorMessage (code : Nat)
  | demoFallback
deriving DecidableEq

/-- `show_agent_status` (src/main.py lines 180-265), at the granularity of
which of the three renderings is produced for each fetch outcome. -/
def show_agent_status_render (f : Fetch AgentsData) : AgentStatusRender :=
  match f with
  | .response code agents =>
      if code = 200 then .live agents else .fetchErrorMessage code
  | .exn => .demoFallback

/-- The dict keys the live agent-status rendering reads from each agent dict
(src/main.py lines 194-213: `agent["active_chats"]`, `agent["max_chats"]`,
`agent['name']`, `agent['performance']`). -/
def agentLiveKeysRead : List String :=
  ["active_chats", "max_chats", "name", "performance"]

/-- `demo_sales` from `show_demo_agent_status` (src/main.py lines 271-275),
verbatim. -/
def demo_sales : List PyDict :=
  [[("name", .str "Sarah Chen"), ("active_chats", .int 3),
    ("max_chats", .int 10), ("performance", .int 92)],
   [("name", .str "Mike Johnson"), ("active_chats", .int 7),
    ("max_chats", .int 10), ("performance", .int 87)],
   [("name", .str "Emma Davis"), ("active_chats", .int 2),
    ("max_chats", .int 8), ("performance", .int 91)]]

/-- `load_pct = (agent["active_chats"] / agent["max_chats"]) * 100`
(src/main.py line 195; Python `/` is true division). -/
def load_pct (active_chats max_chats : Nat) : Rat :=
  ((active_chats : Rat) / (max_chats : Rat)) * 100

/-- The status label chosen for an agent from its load percentage
(src/main.py lines 196-204): `>= 80` Overloaded, `>= 60` Busy, otherwise
Available. -/
def loadStatus (p : Rat) : String :=
  if p ≥ 80 then "Overloaded" else if p ≥ 60 then "Busy" else "Available"

/-- `intent_data` from `show_analytics` (src/main.py lines 331-334): the
counts fed to the intent pie chart. -/
def intent_data : List (String × Nat) := [("Sales", 78), ("Support", 49)]

/-- `priority_data` from `show_analytics` (src/main.py lines 341-344): the
counts fed to the priority bar chart. -/
def priority_data : List (String × Nat) := [("High", 23), ("Medium", 45), ("Low", 32)]

/-- `alps_scores` from `show_analytics` (src/main.py line 353): the data fed
to the ALPS score histogram. -/
def alps_scores : List Rat :=
  [85.2, 72.1, 91.3, 68.7, 79.4, 83.1, 76.8, 88.9, 65.3, 92.1]

/-- One bullet line of a distribution in `show_text_analytics`: a label, a
count and a percentage, e.g. `Sales: 78 messages (61.4 percent)`. -/
structure TextDistLine where
  label : String
  count : Nat
  pct : Rat
deriving DecidableEq

/-- The Intent Distribution lines of `show_text_analytics` (src/main.py
lines 378-380), transcribed from the literal `st.write` strings. -/
def textIntentLines : List TextDistLine :=
  [⟨"Sales", 78, 61.4⟩, ⟨"Support", 49, 38.6⟩]

/-- The Priority Distribution lines of `show_text_analytics` (src/main.py
lines 382-385), transcribed from the literal `st.write` strings. -/
def textPriorityLines : List TextDistLine :=
  [⟨"High", 23, 23.0⟩, ⟨"Medium", 45, 45.0⟩, ⟨"Low", 32, 32.0⟩]

/-- The ALPS Score Stats of `show_text_analytics` (src/main.py lines
388-391), transcribed from the literal `st.write` strings. -/
def textAlpsAverage : Rat := 78.4

def textAlpsHighest : Rat := 92.1

def textAlpsLowest : Rat := 65.3

/-- Rounding to one decimal place, as Python renders a percentage such as
61.4 from 78/127. -/
def round1 (q : Rat) : Rat := ((round (q * 10) : Int) : Rat) / 10

/-- A `RoutingResult` response dict: every key the dashboard reads is
optional (`display_routing_result` accesses them with `.get` or guards with
`'key' in result`). -/
structure RoutingResult where
  intent : Option String := none
  sentiment : Option String := none
  urgency : Option String := none
  confidence : Option Rat := none
  alps_score : Option Rat := none
  priority_level : Option String := none
  score_breakdown : Option (List (String × Rat)) := none
  assigned_agent : Option String := none
  escalated : Option Bool := none
  routing_reason : Option String := none
deriving DecidableEq

/-- The sentiment color dict of `display_routing_result` (src/main.py line
494): `.get(sentiment, "⚪")` on a title-cased sentiment. -/
def sentiment_color (sentiment : String) : String :=
  if sentiment = "Positive" then "🟢"
  else if sentiment = "Negative" then "🔴"
  else if sentiment = "Neutral" then "🟡"
  else "⚪"

/-- The urgency color dict of `display_routing_result` (src/main.py line
499): `.get(urgency, "⚪")` on a title-cased urgency. -/
def urgency_color (urgency : String) : String :=
  if urgency = "High" then "🔴"
  else if urgency = "Medium" then "🟡"
  else if urgency = "Low" then "🟢"
  else "⚪"

/-- The three priority indicators of the ALPS section (src/main.py lines
552-560): HIGH PRIORITY LEAD, MEDIUM PRIORITY LEAD, STANDARD LEAD. -/
inductive LeadPriority where
  | high
  | medium
  | standard
deriving DecidableEq

/-- The priority banding of the ALPS section (src/main.py lines 552-559):
`alps_score >= 80` high, `alps_score >= 60` medium, otherwise standard. -/
def alps_priority (alps_score : Rat) : LeadPriority :=
  if alps_score ≥ 80 then .high
  else if alps_score ≥ 60 then .medium
  else .standard

/-- One rendered line of the score breakdown (src/main.py lines 566-568):
`criteria.replace('_', ' ').title()` and `f"{score:.2f}"`. -/
def breakdown_line (criteria : String) (score : Rat) : String :=
  "• " ++ pyTitle (replaceUnderscores criteria) ++ ": " ++ formatFixed2 score

/-- The ALPS Scoring Analysis section (src/main.py lines 507-568), rendered
only for a sales intent with an `alps_score` key present. -/
structure AlpsSection where
  score : Rat
  priority : LeadPriority
  breakdownLines : Option (List String)
deriving DecidableEq

/-- Everything `display_routing_result` (src/main.py lines 480-587) puts on
screen, one field per widget, in source order. -/
structure DisplayedResult where
  intentText : String
  sentimentText : String
  urgencyText : String
  confidenceText : String
  alpsSection : Option AlpsSection
  assignedAgentLine : String
  escalatedLine : String
  routingReasonLine : String
deriving DecidableEq

/-- `display_routing_result` (src/main.py lines 480-587).  Mirrors the
source line by line: `.get(key, default)` becomes `Option.getD`, the
`'alps_score' in result` guard becomes `Option.isSome`, and Python
truthiness of `result.get('escalated')` (absent key gives `None`, falsy)
becomes `Option.getD false`. -/
def display_routing_result (result : RoutingResult) : DisplayedResult :=
  let intent := pyTitle (result.intent.getD "N/A")
  let sentiment := pyTitle (result.sentiment.getD "N/A")
  let urgency := pyTitle (result.urgency.getD "N/A")
  let confidence := result.confidence.getD 0
  { intentText := intent
    sentimentText := sentiment_color sentiment ++ " " ++ sentiment
    urgencyText := urgency_color urgency ++ " " ++ urgency
    confidenceText := formatPct1 confidence
    alpsSection :=
      if result.intent = some "sales" ∧ result.alps_score.isSome = true then
        some { score := result.alps_score.getD 0
               priority := alps_priority (result.alps_score.getD 0)
               breakdownLines := result.score_breakdown.map
                 (fun b => b.map (fun kv => breakdown_line kv.1 kv.2)) }
      else none
    assignedAgentLine := "**👤 Assigned Agent:** " ++ result.assigned_agent.getD "N/A"
    escalatedLine :=
      if result.escalated.getD false then "⚠️ **Escalated to Manager**"
      else "✅ **Standard Routing**"
    routingReasonLine := "**📝 Routing Reason:** " ++ result.routing_reason.getD "N/A" }

/-! ## Helper lemmas (shared) -/

lemma data_append (a b : String) : (a ++ b).data = a.data ++ b.data := rfl

lemma digitChar_ne_dot (n : Nat) : Nat.digitChar n ≠ '.' := by
  by_cases h : n < 16
  · interval_cases n <;> decide
  · unfold Nat.digitChar
    iterate 16 rw [if_neg (by omega)]
    decide

lemma digitChar_isDigit (n : Nat) (h : n < 10) : (Nat.digitChar n).isDigit = true := by
  interval_cases n <;> decide

lemma toDigitsCore_mem (b : Nat) :
    ∀ (fuel n : Nat) (ds : List Char) (c : Char), c ∈ Nat.toDigitsCore b fuel n ds →
      c ∈ ds ∨ ∃ k, c = Nat.digitChar k := by
  intro fuel
  induction fuel with
  | zero =>
    intro n ds c hc
    left
    simpa [Nat.toDigitsCore] using hc
  | succ fuel ih =>
    intro n ds c hc
    rw [Nat.toDigitsCore] at hc
    by_cases h : n / b = 0
    · rw [if_pos h] at hc
      rcases List.mem_cons.mp hc with h1 | h1
      · exact Or.inr ⟨n % b, h1⟩
      · exact Or.inl h1
    · rw [if_neg h] at hc
      rcases ih _ _ _ hc with h1 | h1
      · rcases List.mem_cons.mp h1 with h2 | h2
        · exact Or.inr ⟨n % b, h2⟩
        · exact Or.inl h2
      · exact Or.inr h1

lemma toString_nat_no_dot (n : Nat) : '.' ∉ (toString n).data := by
  intro hc
  have hmem : '.' ∈ Nat.toDigitsCore 10 (n + 1) n [] := hc
  rcases toDigitsCore_mem 10 (n + 1) n [] '.' hmem with h | ⟨k, hk⟩
  · exact List.not_mem_nil _ h
  · exact digitChar_ne_dot k hk.symm

lemma round1_sales_pct : round1 ((78 : Rat) * 100 / 127) = 61.4 := by
  have h : round ((78 : Rat) * 100 / 127 * 10) = 614 := by rw [round_eq]; norm_num
  rw [round1, h]; norm_num

lemma round1_support_pct : round1 ((49 : Rat) * 100 / 127) = 38.6 := by
  have h : round ((49 : Rat) * 100 / 127 * 10) = 386 := by rw [round_eq]; norm_num
  rw [round1, h]; norm_num

lemma round1_nat_pct (n : Nat) : round1 ((n : Rat) * 100 / 100) = (n : Rat) := by
  have hq : ((n : Rat) * 100 / 100) = (n : Rat) := by field_simp
  have h : round ((n : Rat) * 100 / 100 * 10) = (n : Int) * 10 := by
    rw [hq]
    have : ((n : Rat)) * 10 = (((n : Int) * 10 : Int) : Rat) := by push_cast; ring
    rw [this, round_intCast]
  rw [round1, h]
  push_cast
  ring

/-! ## The claims -/

/-- C6: the health check is total over its three outcomes: Online exactly on
an HTTP 200 response, Error exactly on a non-200 response, Offline exactly
when the request raises.  The embedding is a total function, so no exception
surfaces to the caller. -/
theorem check_api_status_total (f : Fetch Unit) :
    (check_api_status f = .online ↔ f = .response 200 ()) ∧
    (check_api_status f = .apiError ↔ ∃ c, c ≠ 200 ∧ f = .response c ()) ∧
    (check_api_status f = .offline ↔ f = .exn) := by
  cases f with
  | response code body =>
    cases body
    by_cases h : code = 200 <;> subst_eqs <;> simp_all [check_api_status]
  | exn => simp [check_api_status]

theorem check_api_status_total_witness :
    check_api_status (.response 200 ()) = .online ∧
    check_api_status (.response 503 ()) = .apiError ∧
    check_api_status .exn = .offline :=
  ⟨(check_api_status_total _).1.mpr rfl,
   (check_api_status_total _).2.1.mpr ⟨503, by decide, rfl⟩,
   (check_api_status_total _).2.2.mpr rfl⟩

/-- C1: for a routing result with intent sales and an alps_score present,
`display_routing_result` bands the score with exact boundaries: 80 ≤ score
renders HIGH PRIORITY, 60 ≤ score < 80 renders MEDIUM PRIORITY, score < 60
renders STANDARD. -/
theorem alps_priority_banding (r : RoutingResult) (s : Rat)
    (hIntent : r.intent = some "sales") (hScore : r.alps_score = some s) :
    (80 ≤ s → (display_routing_result r).alpsSection.map AlpsSection.priority = some .high) ∧
    (60 ≤ s → s < 80 →
      (display_routing_result r).alpsSection.map AlpsSection.priority = some .medium) ∧
    (s < 60 →
      (display_routing_result r).alpsSection.map AlpsSection.priority = some .standard) := by
  have hsec : (display_routing_result r).alpsSection.map AlpsSection.priority
      = some (alps_priority s) := by
    simp [display_routing_result, hIntent, hScore]
  rw [hsec]
  refine ⟨fun h80 => ?_, fun h60 h80 => ?_, fun h60 => ?_⟩
  · simp [alps_priority, h80]
  · simp [alps_priority, h60, not_le.mpr h80]
  · simp [alps_priority, not_le.mpr h60, not_le.mpr (lt_trans h60 (by norm_num : (60:Rat) < 80))]

theorem alps_priority_banding_witness :
    (display_routing_result { intent := some "sales", alps_score := some 80 }).alpsSection.map
      AlpsSection.priority = some .high ∧
    (display_routing_result { intent := some "sales", alps_score := some 60 }).alpsSection.map
      AlpsSection.priority = some .medium ∧
    (display_routing_result { intent := some "sales", alps_score := some 59 }).alpsSection.map
      AlpsSection.priority = some .standard :=
  ⟨(alps_priority_banding _ 80 rfl rfl).1 (by norm_num),
   (alps_priority_banding _ 60 rfl rfl).2.1 (by norm_num) (by norm_num),
   (alps_priority_banding _ 59 rfl rfl).2.2 (by norm_num)⟩

/-- C10: `display_routing_result` renders the ALPS Scoring Analysis section
exactly when the intent field equals the lowercase string sales and the
alps_score key is present; any other intent value or a missing alps_score
skips the section regardless of the other fields. -/
theorem alps_section_iff (r : RoutingResult) :
    ((display_routing_result r).alpsSection.isSome = true) ↔
      (r.intent = some "sales" ∧ r.alps_score.isSome = true) := by
  by_cases h : r.intent = some "sales" ∧ r.alps_score.isSome = true <;>
    simp [display_routing_result, h]

theorem alps_section_iff_witness :
    (display_routing_result { intent := some "sales", alps_score := some 85 }).alpsSection.isSome
      = true ∧
    ¬ ((display_routing_result
        { intent := some "Sales", alps_score := some 85,
          score_breakdown := some [("budget_match", 8)] }).alpsSection.isSome = true) ∧
    ¬ ((display_routing_result
        { intent := some "sales", priority_level := some "high" }).alpsSection.isSome
          = true) :=
  ⟨(alps_section_iff _).mpr ⟨rfl, rfl⟩,
   fun hc => by
     have h := ((alps_section_iff _).mp hc).1
     simp at h,
   fun hc => by
     have h := ((alps_section_iff _).mp hc).2
     simp at h⟩

/-- C2: for an agent with max_chats > 0, the status banding of
`show_agent_status` on load_pct = active_chats / max_chats * 100 is
Overloaded at load_pct ≥ 80 (equivalently 80·max ≤ 100·active), Busy on
60 ≤ load_pct < 80, Available below 60; boundaries go to the higher tier. -/
theorem agent_load_classification (a m : Nat) (h : 0 < m) :
    ((80:Rat) ≤ load_pct a m ↔ 80 * m ≤ 100 * a) ∧
    ((60:Rat) ≤ load_pct a m ↔ 60 * m ≤ 100 * a) ∧
    (80 * m ≤ 100 * a → loadStatus (load_pct a m) = "Overloaded") ∧
    (60 * m ≤ 100 * a → 100 * a < 80 * m → loadStatus (load_pct a m) = "Busy") ∧
    (100 * a < 60 * m → loadStatus (load_pct a m) = "Available") := by
  have hm : (0:Rat) < (m:Nat) := by exact_mod_cast h
  have hval : load_pct a m = ((100 * a : Nat) : Rat) / (m : Rat) := by
    unfold load_pct
    push_cast
    ring
  have key : ∀ t : Nat, ((t:Rat) ≤ load_pct a m ↔ t * m ≤ 100 * a) := by
    intro t
    rw [hval, le_div_iff₀ hm]
    norm_cast
  refine ⟨key 80, key 60, fun hov => ?_, fun hb hnb => ?_, fun hav => ?_⟩
  · have h1 : (80:Rat) ≤ load_pct a m := (key 80).mpr hov
    simp [loadStatus, h1]
  · have h1 : ¬ ((80:Rat) ≤ load_pct a m) := fun hc => absurd ((key 80).mp hc) (by omega)
    have h2 : (60:Rat) ≤ load_pct a m := (key 60).mpr hb
    simp [loadStatus, h1, h2]
  · have h1 : ¬ ((80:Rat) ≤ load_pct a m) := fun hc => absurd ((key 80).mp hc) (by omega)
    have h2 : ¬ ((60:Rat) ≤ load_pct a m) := fun hc => absurd ((key 60).mp hc) (by omega)
    simp [loadStatus, h1, h2]

theorem agent_load_classification_witness :
    load_pct 8 10 = 80 ∧ loadStatus (load_pct 8 10) = "Overloaded" :=
  ⟨by norm_num [load_pct], (agent_load_classification 8 10 (by decide)).2.2.1 (by decide)⟩

/-- C3 counterexample: on a non-200 response the agent-status page renders
only the inline fetch-error message, not the demo fallback dataset, so the
claim that both pages degrade to demo data on a non-200 status is false at
status 500. -/
theorem agent_status_non200_renders_error_not_demo :
    show_agent_status_render (.response 500 []) = .fetchErrorMessage 500 ∧
    show_agent_status_render (.response 500 []) ≠ .demoFallback := by
  decide

/-- C3 (amended): the overview activity feed degrades to the demo dataset on
a raised exception and on any non-200 status; the agent-status page degrades
to the demo dataset on a raised exception, but on a non-200 status renders
an inline error message instead.  Both embeddings are total functions, so
neither page propagates the error. -/
theorem degraded_rendering_on_failure (code : Nat) (routings : List PyDict)
    (agents : AgentsData) (hc : code ≠ 200) :
    show_overview_feed (.response code routings) = .demo ∧
    show_overview_feed .exn = .demo ∧
    show_agent_status_render .exn = .demoFallback ∧
    show_agent_status_render (.response code agents) = .fetchErrorMessage code := by
  refine ⟨?_, rfl, rfl, ?_⟩ <;> simp [show_overview_feed, show_agent_status_render, hc]

theorem degraded_rendering_on_failure_witness :
    show_overview_feed (.response 500 []) = .demo ∧
    show_agent_status_render (.response 404 []) = .fetchErrorMessage 404 :=
  ⟨(degraded_rendering_on_failure 500 [] [] (by decide)).1,
   (degraded_rendering_on_failure 404 [] [] (by decide)).2.2.2⟩

/-- C7: `display_routing_result` renders the neutral placeholder for every
absent optional field — intent, sentiment, urgency, assigned_agent and
routing_reason — and, being a total function of the record with all fields
optional, never raises on a result missing any of them. -/
theorem missing_fields_render_na (r : RoutingResult) :
    (r.intent = none → (display_routing_result r).intentText = "N/A") ∧
    (r.sentiment = none → (display_routing_result r).sentimentText = "⚪ N/A") ∧
    (r.urgency = none → (display_routing_result r).urgencyText = "⚪ N/A") ∧
    (r.assigned_agent = none →
      (display_routing_result r).assignedAgentLine = "**👤 Assigned Agent:** N/A") ∧
    (r.routing_reason = none →
      (display_routing_result r).routingReasonLine = "**📝 Routing Reason:** N/A") := by
  refine ⟨fun h => ?_, fun h => ?_, fun h => ?_, fun h => ?_, fun h => ?_⟩ <;>
    simp [display_routing_result, h] <;> decide

theorem missing_fields_render_na_witness :
    (display_routing_result {}).intentText = "N/A" ∧
    (display_routing_result {}).sentimentText = "⚪ N/A" ∧
    (display_routing_result {}).urgencyText = "⚪ N/A" ∧
    (display_routing_result {}).assignedAgentLine = "**👤 Assigned Agent:** N/A" ∧
    (display_routing_result {}).routingReasonLine = "**📝 Routing Reason:** N/A" :=
  ⟨(missing_fields_render_na {}).1 rfl, (missing_fields_render_na {}).2.1 rfl,
   (missing_fields_render_na {}).2.2.1 rfl, (missing_fields_render_na {}).2.2.2.1 rfl,
   (missing_fields_render_na {}).2.2.2.2 rfl⟩

/-- C8: after title-casing, sentiment Positive, Negative and Neutral map to
the green, red and yellow tags and any other value to the unknown tag;
urgency High, Medium and Low map to red, yellow and green with the same
fallback.  Both maps are total functions, so no value errors. -/
theorem color_tag_mapping (s : String) :
    (pyTitle s = "Positive" → sentiment_color (pyTitle s) = "🟢") ∧
    (pyTitle s = "Negative" → sentiment_color (pyTitle s) = "🔴") ∧
    (pyTitle s = "Neutral" → sentiment_color (pyTitle s) = "🟡") ∧
    (pyTitle s ≠ "Positive" → pyTitle s ≠ "Negative" → pyTitle s ≠ "Neutral" →
      sentiment_color (pyTitle s) = "⚪") ∧
    (pyTitle s = "High" → urgency_color (pyTitle s) = "🔴") ∧
    (pyTitle s = "Medium" → urgency_color (pyTitle s) = "🟡") ∧
    (pyTitle s = "Low" → urgency_color (pyTitle s) = "🟢") ∧
    (pyTitle s ≠ "High" → pyTitle s ≠ "Medium" → pyTitle s ≠ "Low" →
      urgency_color (pyTitle s) = "⚪") := by
  refine ⟨fun h => ?_, fun h => ?_, fun h => ?_, fun h1 h2 h3 => ?_,
    fun h => ?_, fun h => ?_, fun h => ?_, fun h1 h2 h3 => ?_⟩ <;>
    simp_all [sentiment_color, urgency_color]

theorem color_tag_mapping_witness :
    sentiment_color (pyTitle "positive") = "🟢" ∧
    sentiment_color (pyTitle "confused") = "⚪" ∧
    urgency_color (pyTitle "high") = "🔴" ∧
    urgency_color (pyTitle "urgent") = "⚪" :=
  ⟨(color_tag_mapping "positive").1 (by decide),
   (color_tag_mapping "confused").2.2.2.1 (by decide) (by decide) (by decide),
   (color_tag_mapping "high").2.2.2.2.1 (by decide),
   (color_tag_mapping "urgent").2.2.2.2.2.2.2 (by decide) (by decide) (by decide)⟩

/-- C4 counterexample: the demo activity entries carry the keys time,
message and status, none of which is among the keys the live activity-feed
rendering reads (assigned_at, alps_score, intent, agent_id) — in particular
assigned_at, which the live path reads, is absent from every demo entry. -/
theorem demo_activity_schema_differs :
    "assigned_at" ∈ overviewLiveKeysRead ∧
    activity_data.map (fun e => e.map Prod.fst) =
      [["time", "message", "status"], ["time", "message", "status"],
       ["time", "message", "status"], ["time", "message", "status"]] ∧
    "assigned_at" ∉ (["time", "message", "status"] : List String) := by
  decide

/-- C4 (amended): every demo agent-status entry carries exactly the field
set the live agent rendering reads (name, active_chats, max_chats,
performance), but every demo activity entry carries the field set time,
message, status, which is disjoint from the field set the live activity
rendering reads. -/
theorem demo_schema_agent_match_activity_mismatch :
    (∀ entry ∈ demo_sales, (∀ k ∈ entry.map Prod.fst, k ∈ agentLiveKeysRead) ∧
      (∀ k ∈ agentLiveKeysRead, k ∈ entry.map Prod.fst)) ∧
    (∀ entry ∈ activity_data, entry.map Prod.fst = ["time", "message", "status"]) ∧
    (∀ k ∈ overviewLiveKeysRead, k ∉ (["time", "message", "status"] : List String)) := by
  decide

theorem demo_schema_agent_match_activity_mismatch_witness :
    "name" ∈ ([("name", PyValue.str "Sarah Chen"), ("active_chats", PyValue.int 3),
      ("max_chats", PyValue.int 10), ("performance", PyValue.int 92)] : PyDict).map Prod.fst ∧
    "alps_score" ∉ (["time", "message", "status"] : List String) :=
  ⟨(demo_schema_agent_match_activity_mismatch.1 _ (by decide)).2 "name" (by decide),
   demo_schema_agent_match_activity_mismatch.2.2 "alps_score" (by decide)⟩

/-- C5 counterexample: the textual ALPS average (78.4) differs from the
average of the data the graphical path plots, which is 80.29, so the
information content of the two rendering paths is not identical. -/
theorem text_alps_average_differs :
    textAlpsAverage ≠ alps_scores.sum / ((alps_scores.length : Nat) : Rat) := by
  norm_num [textAlpsAverage, alps_scores]

/-- C5 (amended): the text-analytics page reports the same counts as the
graphical path for the intent distribution (including Sales: 78 messages at
61.4 percent) and the priority distribution, with each percentage the
rounding of count·100/total and each distribution summing to exactly 100,
and its ALPS Highest and Lowest equal the maximum and minimum of the
graphical data; only the reported ALPS average differs (see the
counterexample). -/
theorem text_analytics_same_facts_except_average :
    textIntentLines.map TextDistLine.label = intent_data.map Prod.fst ∧
    textIntentLines.map TextDistLine.count = intent_data.map Prod.snd ∧
    (∀ l ∈ textIntentLines,
      l.pct = round1 ((l.count : Rat) * 100 / (((intent_data.map Prod.snd).sum : Nat) : Rat))) ∧
    (textIntentLines.map TextDistLine.pct).sum = 100 ∧
    textPriorityLines.map TextDistLine.label = priority_data.map Prod.fst ∧
    textPriorityLines.map TextDistLine.count = priority_data.map Prod.snd ∧
    (∀ l ∈ textPriorityLines,
      l.pct = round1 ((l.count : Rat) * 100 / (((priority_data.map Prod.snd).sum : Nat) : Rat))) ∧
    (textPriorityLines.map TextDistLine.pct).sum = 100 ∧
    textAlpsHighest ∈ alps_scores ∧ (∀ x ∈ alps_scores, x ≤ textAlpsHighest) ∧
    textAlpsLowest ∈ alps_scores ∧ (∀ x ∈ alps_scores, textAlpsLowest ≤ x) := by
  refine ⟨rfl, rfl, ?_, ?_, rfl, rfl, ?_, ?_, ?_, ?_, ?_, ?_⟩
  · intro l hl
    have hsum : (((intent_data.map Prod.snd).sum : Nat) : Rat) = 127 := by norm_num [intent_data]
    fin_cases hl <;> rw [hsum]
    · exact round1_sales_pct.symm
    · exact round1_support_pct.symm
  · norm_num [textIntentLines]
  · intro l hl
    have hsum : (((priority_data.map Prod.snd).sum : Nat) : Rat) = 100 := by
      norm_num [priority_data]
    fin_cases hl <;> rw [hsum]
    · exact ((round1_nat_pct 23).trans (by norm_num)).symm
    · exact ((round1_nat_pct 45).trans (by norm_num)).symm
    · exact ((round1_nat_pct 32).trans (by norm_num)).symm
  · norm_num [textPriorityLines]
  · simp [textAlpsHighest, alps_scores]
  · intro x hx
    simp only [alps_scores, List.mem_cons, List.not_mem_nil, or_false] at hx
    rcases hx with rfl | rfl | rfl | rfl | rfl | rfl | rfl | rfl | rfl | rfl <;>
      norm_num [textAlpsHighest]
  · simp [textAlpsLowest, alps_scores]
  · intro x hx
    simp only [alps_scores, List.mem_cons, List.not_mem_nil, or_false] at hx
    rcases hx with rfl | rfl | rfl | rfl | rfl | rfl | rfl | rfl | rfl | rfl <;>
      norm_num [textAlpsLowest]

theorem text_analytics_same_facts_witness :
    (⟨"Sales", 78, 61.4⟩ : TextDistLine).pct =
      round1 (((⟨"Sales", 78, 61.4⟩ : TextDistLine).count : Rat) * 100 /
        (((intent_data.map Prod.snd).sum : Nat) : Rat)) ∧
    (85.2 : Rat) ≤ textAlpsHighest ∧ textAlpsLowest ≤ (85.2 : Rat) :=
  ⟨text_analytics_same_facts_except_average.2.2.1 _ (by simp [textIntentLines]),
   text_analytics_same_facts_except_average.2.2.2.2.2.2.2.2.2.1 85.2 (by simp [alps_scores]),
   text_analytics_same_facts_except_average.2.2.2.2.2.2.2.2.2.2.2 85.2 (by simp [alps_scores])⟩

/-- C9: each score_breakdown entry renders as the bullet line whose
criterion name is the key with underscores replaced by spaces and then
title-cased — the replacement leaves no underscore and introduces only
spaces — and whose value is formatted with exactly two digits after the one
decimal point. -/
theorem score_breakdown_rendering (criteria : String) (score : Rat) :
    breakdown_line criteria score =
      "• " ++ pyTitle (replaceUnderscores criteria) ++ ": " ++ formatFixed2 score ∧
    '_' ∉ (replaceUnderscores criteria).data ∧
    (∀ c ∈ (replaceUnderscores criteria).data, c = ' ' ∨ c ∈ criteria.data) ∧
    (∃ w d1 d2, (formatFixed2 score).data = w ++ ['.', d1, d2] ∧
      '.' ∉ w ∧ d1.isDigit = true ∧ d2.isDigit = true) := by
  have hdata : (replaceUnderscores criteria).data
      = criteria.data.map (fun c => if c = '_' then ' ' else c) := rfl
  refine ⟨rfl, ?_, ?_, ?_⟩
  · intro hmem
    rw [hdata, List.mem_map] at hmem
    obtain ⟨c, _, hfc⟩ := hmem
    by_cases hcu : c = '_'
    · rw [if_pos hcu] at hfc
      exact absurd hfc (by decide)
    · rw [if_neg hcu] at hfc
      exact hcu hfc
  · intro c hc
    rw [hdata, List.mem_map] at hc
    obtain ⟨c0, hc0, hfc⟩ := hc
    by_cases hcu : c0 = '_'
    · left
      rw [if_pos hcu] at hfc
      exact hfc.symm
    · right
      rw [if_neg hcu] at hfc
      exact hfc ▸ hc0
  · refine ⟨((if (round (score * 100) : Int) < 0 then "-" else "") ++
        toString ((round (score * 100) : Int).natAbs / 100)).data,
      Nat.digitChar ((round (score * 100) : Int).natAbs % 100 / 10),
      Nat.digitChar ((round (score * 100) : Int).natAbs % 10), ?_, ?_, ?_, ?_⟩
    · show (formatFixed2 score).data = _
      unfold formatFixed2
      simp only [data_append, List.append_assoc]
      rfl
    · intro hdot
      rw [data_append, List.mem_append] at hdot
      rcases hdot with h | h
      · by_cases hneg : (round (score * 100) : Int) < 0
        · rw [if_pos hneg] at h
          revert h
          decide
        · rw [if_neg hneg] at h
          revert h
          decide
      · exact toString_nat_no_dot _ h
    · exact digitChar_isDigit _ (by omega)
    · exact digitChar_isDigit _ (by omega)

theorem score_breakdown_rendering_witness :
    breakdown_line "budget_match" (8.5 : Rat) = "• Budget Match: 8.50" := by
  rw [(score_breakdown_rendering "budget_match" (8.5 : Rat)).1]
  have h850 : round ((8.5 : Rat) * 100) = 850 := by rw [round_eq]; norm_num
  simp [formatFixed2, h850]
  decide

end SmartRouting
